import Mathlib

/-!
Shallow embedding of the sepsis risk-scoring pipeline from
`src/lib/riskCalculator.ts` (and the zone computation duplicated in the
check-in API route), together with theorems settling the specification
claims about it.

Conventions of the embedding:
* TypeScript `number` fields are modelled as `ℚ` (vitals can carry decimal
  values such as 96.8); ordinal level fields and counts are `Nat`.
* Optional fields (`?:` in TypeScript) are `Option _`; JavaScript
  truthiness of an optional boolean (`if (response.cough_worsening)`) is
  `= some true`, and `baseline_bp_systolic || 120` (which also replaces a
  falsy `0`) is `resolveBaseline`.
* The in-place writes of `calculateZones` are modelled by a pure function
  returning the updated record; the record returned is the post-call state
  of the mutated argument.
* `Math.round` on the non-negative scores involved is `⌊x + 1/2⌋`
  (JavaScript rounds halves toward +∞).
* Decorative emoji prefixes of some reasoning strings are omitted; all
  load-bearing text is kept.

The fields `mucus_color_level` and `on_immunosuppressants` are not declared
in the calculator's `SurveyResponse` interface but are part of the survey /
database data model (`dailyCheckIn.ts` maps an answer to
`mucus_color_level`; the `patients` table and the API route carry
`on_immunosuppressants`); they are included here so that claims mentioning
them can be stated.  The calculator itself never reads them, exactly as in
the source.
-/

namespace Sepsis

inductive RiskLevel where
  | GREEN
  | YELLOW
  | RED
  | RED_EMERGENCY
deriving DecidableEq, Repr

inductive UtiTrend where
  | improved
  | same
  | worsened
  | not_applicable
deriving DecidableEq, Repr

structure SurveyResponse where
  -- IMMEDIATE DANGER (Q1-Q4)
  fainted_or_very_dizzy : Bool
  severe_trouble_breathing : Bool
  severe_confusion : Bool
  extreme_heat_or_chills : Bool
  -- ENERGY & WELL-BEING (Q5-Q7)
  overall_feeling : Option Nat
  energy_level : Nat
  pain_level : Option Nat
  -- VITALS (Q8-Q13)
  fever_chills : Bool
  has_thermometer : Bool
  temperature_value : Option ℚ
  temperature_zone : Option Nat
  has_pulse_oximeter : Bool
  oxygen_level_value : Option ℚ
  oxygen_level_zone : Option Nat
  heart_racing : Bool
  has_hr_monitor : Bool
  heart_rate_value : Option ℚ
  heart_rate_zone : Option Nat
  has_bp_cuff : Bool
  blood_pressure_systolic : Option ℚ
  baseline_bp_systolic : Option ℚ
  blood_pressure_zone : Option Nat
  -- MENTAL STATUS (Q14)
  thinking_level : Nat
  -- BREATHING (Q15)
  breathing_level : Nat
  -- ORGAN FUNCTION (Q16-Q18)
  urine_appearance_level : Nat
  has_recent_uti : Bool
  uti_symptoms_worsening : Option UtiTrend
  has_kidney_disease : Bool
  has_kidney_failure : Bool
  has_dialysis : Bool
  urine_output_level : Option Nat
  -- INFECTION (Q19-Q22)
  has_cough : Bool
  has_recent_pneumonia : Bool
  cough_worsening : Option Bool
  has_active_wound : Bool
  wound_state_level : Option Nat
  discolored_skin : Bool
  -- GI SYMPTOMS (Q23)
  nausea_vomiting_diarrhea : Bool
  -- ADDITIONAL NOTES (Q24)
  additional_notes : Option String
  -- PATIENT CONTEXT
  age : Option Nat
  has_weakened_immune : Bool
  admitted_count : Nat
  -- Wider data model (survey / database), unread by the calculator
  mucus_color_level : Option Nat
  on_immunosuppressants : Bool
deriving DecidableEq, Repr

structure RiskCalculationResult where
  riskLevel : RiskLevel
  totalScore : Nat
  baseScore : Nat
  interactionScore : Nat
  criticalFlags : Nat
  highRiskModifierApplied : Bool
  reasoning : List String
  emergencyMessage : Option String
deriving DecidableEq, Repr

/-- JavaScript `Math.round`: round half toward +∞, i.e. `⌊q + 1/2⌋`.  The
sum `q + 1/2` is written out on numerator and denominator so that the
function evaluates inside the kernel; `mathRound_eq_floor` below shows it
is exactly `⌊q + 1/2⌋`. -/
def mathRound (q : ℚ) : ℤ := ⌊mkRat (2 * q.num + q.den) (2 * q.den)⌋

/-- Translation of `response.baseline_bp_systolic || 120`: JavaScript replaces both an
absent and a falsy (`0`) baseline by 120. -/
def resolveBaseline (bl : Option ℚ) : ℚ :=
  match bl with
  | none => 120
  | some b => if b = 0 then 120 else b

/-- Temperature zone branch of `calculateZones`.  The decimal thresholds
96.8, 99.9 and 101.4 are written `mkRat _ 10` so that they evaluate inside
the kernel; `decimalConstantsSpec` below identifies them with the decimal
literals of the source. -/
def tempZoneOf (t : ℚ) : Nat :=
  if mkRat 968 10 ≤ t ∧ t ≤ mkRat 999 10 then 1
  else if 100 ≤ t ∧ t ≤ mkRat 1014 10 then 2
  else 3

/-- Oxygen zone branch of `calculateZones`. -/
def oxygenZoneOf (o : ℚ) : Nat :=
  if 95 ≤ o ∧ o ≤ 100 then 1
  else if 92 ≤ o ∧ o ≤ 94 then 2
  else 3

/-- Heart-rate zone branch of `calculateZones`. -/
def heartRateZoneOf (h : ℚ) : Nat :=
  if 60 ≤ h ∧ h ≤ 100 then 1
  else if 101 ≤ h ∧ h ≤ 120 then 2
  else 3

/-- Blood-pressure zone branch of `calculateZones`. -/
def bpZoneOf (bp : ℚ) (bl : Option ℚ) : Nat :=
  let baseline := resolveBaseline bl
  if bp < 90 then 3
  else if bp > 180 then 3
  else if bp < baseline - 40 then 3
  else if bp < baseline - 20 then 2
  else 1

/-- One vital of `calculateZones`: fill the zone only when the raw value is
present and the zone is not pre-calculated. -/
def zoneTempStep (r : SurveyResponse) : SurveyResponse :=
  match r.temperature_value, r.temperature_zone with
  | some t, none => { r with temperature_zone := some (tempZoneOf t) }
  | _, _ => r

def zoneOxygenStep (r : SurveyResponse) : SurveyResponse :=
  match r.oxygen_level_value, r.oxygen_level_zone with
  | some o, none => { r with oxygen_level_zone := some (oxygenZoneOf o) }
  | _, _ => r

def zoneHeartRateStep (r : SurveyResponse) : SurveyResponse :=
  match r.heart_rate_value, r.heart_rate_zone with
  | some h, none => { r with heart_rate_zone := some (heartRateZoneOf h) }
  | _, _ => r

def zoneBpStep (r : SurveyResponse) : SurveyResponse :=
  match r.blood_pressure_systolic, r.blood_pressure_zone with
  | some bp, none =>
      { r with blood_pressure_zone := some (bpZoneOf bp r.baseline_bp_systolic) }
  | _, _ => r

/-- Function `calculateZones`: writes the four zone fields into the response when a
raw value is present and the zone is not pre-calculated.  The returned
record is the post-call state of the (mutated, in the source) argument. -/
def calculateZones (r : SurveyResponse) : SurveyResponse :=
  zoneBpStep (zoneHeartRateStep (zoneOxygenStep (zoneTempStep r)))

/-- STEP 1 (`checkEmergencyConditions`): the Q1-Q4 immediate-danger booleans;
any true yields a terminal RED_EMERGENCY result. -/
def checkEmergencyConditions (r : SurveyResponse) : Option RiskCalculationResult :=
  if r.fainted_or_very_dizzy then
    some { riskLevel := .RED_EMERGENCY, totalScore := 1000, baseScore := 0,
           interactionScore := 0, criticalFlags := 0, highRiskModifierApplied := false,
           reasoning := ["EMERGENCY: Patient has fainted or is very dizzy"],
           emergencyMessage := some "CALL 911 IMMEDIATELY - Patient has fainted or is very dizzy" }
  else if r.severe_trouble_breathing then
    some { riskLevel := .RED_EMERGENCY, totalScore := 1000, baseScore := 0,
           interactionScore := 0, criticalFlags := 0, highRiskModifierApplied := false,
           reasoning := ["EMERGENCY: Patient has severe trouble breathing"],
           emergencyMessage := some "CALL 911 IMMEDIATELY - Severe breathing trouble" }
  else if r.severe_confusion then
    some { riskLevel := .RED_EMERGENCY, totalScore := 1000, baseScore := 0,
           interactionScore := 0, criticalFlags := 0, highRiskModifierApplied := false,
           reasoning := ["EMERGENCY: Patient is severely confused or not making sense"],
           emergencyMessage := some "CALL 911 IMMEDIATELY - Severe confusion" }
  else if r.extreme_heat_or_chills then
    some { riskLevel := .RED_EMERGENCY, totalScore := 1000, baseScore := 0,
           interactionScore := 0, criticalFlags := 0, highRiskModifierApplied := false,
           reasoning := ["EMERGENCY: Patient has extreme heat or shaking chills"],
           emergencyMessage := some "CALL 911 IMMEDIATELY - Extreme heat or shaking chills" }
  else none

/-- STEP 2 (`checkHardRedOverrides`): critical vital-sign thresholds; any
true yields a terminal RED_EMERGENCY result. -/
def checkHardRedOverrides (r : SurveyResponse) : Option RiskCalculationResult :=
  if r.temperature_value.isSome ∧ mkRat 1035 10 ≤ r.temperature_value.getD 0 then
    some { riskLevel := .RED_EMERGENCY, totalScore := 1000, baseScore := 0,
           interactionScore := 0, criticalFlags := 0, highRiskModifierApplied := false,
           reasoning := ["CRITICAL: Temperature " ++ toString (r.temperature_value.getD 0) ++ " F (>= 103.5 F threshold)"],
           emergencyMessage := some "CALL 911 IMMEDIATELY - Dangerously high temperature" }
  else if r.oxygen_level_value.isSome ∧ r.oxygen_level_value.getD 0 < 90 then
    some { riskLevel := .RED_EMERGENCY, totalScore := 1000, baseScore := 0,
           interactionScore := 0, criticalFlags := 0, highRiskModifierApplied := false,
           reasoning := ["CRITICAL: Oxygen level " ++ toString (r.oxygen_level_value.getD 0) ++ "% (<90% threshold)"],
           emergencyMessage := some "CALL 911 IMMEDIATELY - Dangerously low oxygen level" }
  else if r.heart_rate_value.isSome ∧ 140 < r.heart_rate_value.getD 0 then
    some { riskLevel := .RED_EMERGENCY, totalScore := 1000, baseScore := 0,
           interactionScore := 0, criticalFlags := 0, highRiskModifierApplied := false,
           reasoning := ["CRITICAL: Heart rate " ++ toString (r.heart_rate_value.getD 0) ++ " bpm (>140 bpm threshold)"],
           emergencyMessage := some "CALL 911 IMMEDIATELY - Dangerously high heart rate" }
  else if r.breathing_level = 3 then
    some { riskLevel := .RED_EMERGENCY, totalScore := 1000, baseScore := 0,
           interactionScore := 0, criticalFlags := 0, highRiskModifierApplied := false,
           reasoning := ["CRITICAL: Extremely difficult breathing, major shortness of breath"],
           emergencyMessage := some "CALL 911 IMMEDIATELY - Extreme breathing difficulty" }
  else if r.thinking_level = 3 then
    some { riskLevel := .RED_EMERGENCY, totalScore := 1000, baseScore := 0,
           interactionScore := 0, criticalFlags := 0, highRiskModifierApplied := false,
           reasoning := ["CRITICAL: Patient is not making sense, severe altered mental status"],
           emergencyMessage := some "CALL 911 IMMEDIATELY - Severe mental status change" }
  else if r.blood_pressure_zone = some 3 then
    some { riskLevel := .RED_EMERGENCY, totalScore := 1000, baseScore := 0,
           interactionScore := 0, criticalFlags := 0, highRiskModifierApplied := false,
           reasoning := ["CRITICAL: Blood pressure " ++ toString r.blood_pressure_systolic ++ " mmHg - severe hypotension or hypertensive crisis"],
           emergencyMessage := some "CALL 911 IMMEDIATELY - Dangerously abnormal blood pressure" }
  else if r.discolored_skin then
    some { riskLevel := .RED_EMERGENCY, totalScore := 1000, baseScore := 0,
           interactionScore := 0, criticalFlags := 0, highRiskModifierApplied := false,
           reasoning := ["CRITICAL: Skin, lips, or nails discolored - indicates mottling, cyanosis, or jaundice"],
           emergencyMessage := some "CALL 911 IMMEDIATELY - Skin discoloration indicates poor perfusion or hypoxia" }
  else none

/-- STEP 3 (`countCriticalFlags`): number of red-zone vital signs and organ
dysfunction indicators. -/
def countCriticalFlags (r : SurveyResponse) : Nat :=
  (if r.temperature_zone = some 3 then 1 else 0) +
  (if r.oxygen_level_zone = some 3 then 1 else 0) +
  (if r.heart_rate_zone = some 3 then 1 else 0) +
  (if r.blood_pressure_zone = some 3 then 1 else 0) +
  (if r.urine_appearance_level = 3 then 1 else 0) +
  (if r.urine_output_level = some 3 then 1 else 0) +
  (if r.wound_state_level = some 3 then 1 else 0)

/-- Accumulator of `detectSepsisPatterns`: matched-pattern descriptions plus
the single winning escalation. -/
structure PatternResult where
  detectedPatterns : List String
  escalationLevel : Option RiskLevel
  escalationReason : Option String
deriving DecidableEq, Repr

/-- Helper `setEscalation`: keep the escalation only if it has higher priority
(RED_EMERGENCY > RED > YELLOW > none). -/
def setEscalation (st : PatternResult) (level : RiskLevel) (reason : String) : PatternResult :=
  if st.escalationLevel = some .RED_EMERGENCY then st
  else if st.escalationLevel = some .RED ∧ level ≠ .RED_EMERGENCY then st
  else { st with escalationLevel := some level, escalationReason := some reason }

/-- Predicate `hasClearInfectionContext` as coded: note the last disjunct is
`has_cough && cough_worsening`. -/
def hasClearInfectionContext (r : SurveyResponse) : Bool :=
  r.fever_chills ||
  decide (2 ≤ r.temperature_zone.getD 0) ||
  decide (2 ≤ r.urine_appearance_level) ||
  decide (r.wound_state_level = some 3) ||
  (r.has_cough && decide (r.cough_worsening = some true))

/-- One of the pattern rules 2-9: a condition, a description, and the
escalation it requests. -/
structure PatternRule where
  cond : SurveyResponse → Bool
  msg : SurveyResponse → String
  level : RiskLevel
  reason : String

/-- Push the description and request the escalation, exactly as each
pattern's `if` body does. -/
def applyPatternRule (r : SurveyResponse) (st : PatternResult) (p : PatternRule) : PatternResult :=
  if p.cond r then
    setEscalation { st with detectedPatterns := st.detectedPatterns ++ [p.msg r] } p.level p.reason
  else st

/-- Patterns 2-9 of `detectSepsisPatterns`, in source order (pattern 1 is
handled separately because of its early return). -/
def remainingPatternRules : List PatternRule :=
  [ { cond := fun r => decide (2 ≤ r.oxygen_level_zone.getD 0) && decide (2 ≤ r.breathing_level),
      msg := fun _ => "Respiratory failure pattern: Low oxygen with breathing difficulty",
      level := .RED,
      reason := "Respiratory distress pattern detected - seek immediate medical attention" },
    { cond := fun r => decide (2 ≤ r.oxygen_level_zone.getD 0) && decide (r.energy_level = 3),
      msg := fun _ => "Silent hypoxia pattern: Low oxygen with extreme fatigue",
      level := .RED,
      reason := "Silent hypoxia detected - seek immediate medical attention" },
    { cond := fun r => r.fever_chills && decide (2 ≤ r.thinking_level),
      msg := fun _ => "Septic encephalopathy pattern: Fever with altered mental status",
      level := .RED,
      reason := "Brain function affected by infection - seek immediate medical attention" },
    { cond := fun r =>
        decide (2 ≤ r.blood_pressure_zone.getD 0) &&
        (r.blood_pressure_systolic.isSome &&
          decide (r.blood_pressure_systolic.getD 0 ≤ resolveBaseline r.baseline_bp_systolic)) &&
        decide (2 ≤ r.heart_rate_zone.getD 0),
      msg := fun _ => "Compensated shock pattern: Low blood pressure with elevated heart rate",
      level := .RED,
      reason := "Pre-shock state detected - seek immediate medical attention" },
    { cond := fun r => r.temperature_value.isSome && decide (r.temperature_value.getD 0 < mkRat 968 10),
      msg := fun r => "Hypothermia: " ++ toString (r.temperature_value.getD 0) ++ " F - severe sepsis indicator",
      level := .RED,
      reason := "Hypothermia in infection setting - seek immediate medical attention" },
    { cond := fun r => decide (2 ≤ r.temperature_zone.getD 0) && decide (2 ≤ r.heart_rate_zone.getD 0),
      msg := fun _ => "SIRS criteria met: Fever with elevated heart rate",
      level := .YELLOW,
      reason := "Systemic infection signs detected - contact your provider today" },
    { cond := fun r => r.fever_chills && decide (2 ≤ r.urine_appearance_level),
      msg := fun _ => "Urosepsis pattern: Fever with abnormal urine",
      level := .YELLOW,
      reason := "Urinary tract infection with systemic symptoms - contact your provider today" },
    { cond := fun r => decide (r.energy_level = 3) && decide (2 ≤ r.heart_rate_zone.getD 0),
      msg := fun _ => "Cardiovascular stress: Extreme fatigue with elevated heart rate",
      level := .YELLOW,
      reason := "Cardiovascular strain detected - contact your provider today" } ]

/-- Evaluate patterns 2-9 in order over the accumulator. -/
def detectRemainingPatterns (r : SurveyResponse) (st : PatternResult) : PatternResult :=
  remainingPatternRules.foldl (applyPatternRule r) st

def septicShockMsg : String :=
  "Septic shock pattern: Blood pressure drop with altered mental status and infection signs"

def septicShockReason : String :=
  "CALL 911 IMMEDIATELY - Signs of septic shock (hypotension with confusion and infection)"

def hypotensionConfusionMsg : String :=
  "Hypotension with confusion: Blood pressure drop with altered mental status (no clear infection)"

def hypotensionConfusionReason : String :=
  "Seek immediate medical attention - blood pressure drop with confusion requires evaluation"

/-- STEP 4 (`detectSepsisPatterns`): pattern 1 (septic shock) with its
early return, then patterns 2-9. -/
def detectSepsisPatterns (r : SurveyResponse) : PatternResult :=
  let bpZone := r.blood_pressure_zone.getD 0
  let hasAlteredMentalStatus := 2 ≤ r.thinking_level
  if bpZone = 2 ∧ hasAlteredMentalStatus then
    if hasClearInfectionContext r then
      setEscalation
        { detectedPatterns := [septicShockMsg], escalationLevel := none, escalationReason := none }
        .RED_EMERGENCY septicShockReason
    else
      detectRemainingPatterns r
        (setEscalation
          { detectedPatterns := [hypotensionConfusionMsg], escalationLevel := none, escalationReason := none }
          .RED hypotensionConfusionReason)
  else
    detectRemainingPatterns r
      { detectedPatterns := [], escalationLevel := none, escalationReason := none }

/-- Q6 block of `calculateBaseScore`: score contribution and reasoning
entry. -/
def energyPart (r : SurveyResponse) : Nat × List String :=
  if r.energy_level = 2 then (5, ["Moderate fatigue (+5)"])
  else if r.energy_level = 3 then (15, ["Extreme fatigue, too weak to get out of bed (+15)"])
  else (0, [])

/-- Q8 block: subjective fever, only if no thermometer. -/
def feverChillsPart (r : SurveyResponse) : Nat × List String :=
  if r.fever_chills ∧ ¬r.has_thermometer then (10, ["Subjective fever without measurement (+10)"])
  else (0, [])

/-- Q9 block: temperature zone. -/
def temperaturePart (r : SurveyResponse) : Nat × List String :=
  if r.temperature_zone = some 2 then
    (15, ["Temperature " ++ toString r.temperature_value ++ " F - yellow zone (+15)"])
  else if r.temperature_zone = some 3 then
    (40, ["Temperature " ++ toString r.temperature_value ++ " F - red zone (+40)"])
  else (0, [])

/-- Q10 block: oxygen zone. -/
def oxygenPart (r : SurveyResponse) : Nat × List String :=
  if r.oxygen_level_zone = some 2 then
    (15, ["Oxygen " ++ toString r.oxygen_level_value ++ "% - yellow zone (+15)"])
  else if r.oxygen_level_zone = some 3 then
    (40, ["Oxygen " ++ toString r.oxygen_level_value ++ "% - red zone (+40)"])
  else (0, [])

/-- Q11 block: subjective racing heart, only if no monitor. -/
def heartRacingPart (r : SurveyResponse) : Nat × List String :=
  if r.heart_racing ∧ ¬r.has_hr_monitor then (5, ["Subjective heart racing (+5)"])
  else (0, [])

/-- Q12 block: heart-rate zone. -/
def heartRatePart (r : SurveyResponse) : Nat × List String :=
  if r.heart_rate_zone = some 2 then
    (8, ["Heart rate " ++ toString r.heart_rate_value ++ " bpm - yellow zone (+8)"])
  else if r.heart_rate_zone = some 3 then
    (20, ["Heart rate " ++ toString r.heart_rate_value ++ " bpm - red zone (+20)"])
  else (0, [])

/-- Q13 block: blood-pressure zone. -/
def bloodPressurePart (r : SurveyResponse) : Nat × List String :=
  if r.blood_pressure_zone = some 2 then
    (8, ["Blood pressure " ++ toString r.blood_pressure_systolic ++ " mmHg - yellow zone (+8)"])
  else if r.blood_pressure_zone = some 3 then
    (20, ["Blood pressure " ++ toString r.blood_pressure_systolic ++ " mmHg - red zone (+20)"])
  else (0, [])

/-- Q14 block: thinking clarity (only level 2 scores here; level 3 is a
hard override upstream). -/
def thinkingPart (r : SurveyResponse) : Nat × List String :=
  if r.thinking_level = 2 then (8, ["Thinking slow or not quite right (+8)"])
  else (0, [])

/-- Q15 block: breathing status (only level 2 scores here; level 3 is a
hard override upstream). -/
def breathingPart (r : SurveyResponse) : Nat × List String :=
  if r.breathing_level = 2 then (8, ["Breathing slightly more difficult (+8)"])
  else (0, [])

/-- Q16 block: urine appearance. -/
def urineAppearancePart (r : SurveyResponse) : Nat × List String :=
  if r.urine_appearance_level = 2 then (15, ["Urine cloudy, dark, or smelly (+15)"])
  else if r.urine_appearance_level = 3 then
    (40, ["Urine very dark, bloody, or significantly different (+40)"])
  else (0, [])

/-- Q17 block: UTI symptom trend. -/
def utiPart (r : SurveyResponse) : Nat × List String :=
  if r.uti_symptoms_worsening = some .same ∧ r.has_recent_uti then
    (10, ["UTI symptoms unchanged (+10)"])
  else if r.uti_symptoms_worsening = some .worsened then
    (30, ["UTI symptoms worsening (+30)"])
  else (0, [])

/-- Q18 block: urine output. -/
def urineOutputPart (r : SurveyResponse) : Nat × List String :=
  if r.urine_output_level = some 2 then (8, ["Urine output less than usual (+8)"])
  else if r.urine_output_level = some 3 then (40, ["Urine output little to none (+40)"])
  else (0, [])

/-- Q19 block: cough. -/
def coughPart (r : SurveyResponse) : Nat × List String :=
  if r.has_cough then (3, ["Cough or mucus present (+3)"])
  else (0, [])

/-- Q20 block: pneumonia/cough worsening (truthy optional boolean). -/
def coughWorseningPart (r : SurveyResponse) : Nat × List String :=
  if r.cough_worsening = some true then (5, ["Pneumonia symptoms worsening (+5)"])
  else (0, [])

/-- Q21 block: wound status. -/
def woundPart (r : SurveyResponse) : Nat × List String :=
  if r.wound_state_level = some 2 then (10, ["Wound looks different (+10)"])
  else if r.wound_state_level = some 3 then
    (40, ["Wound infected: red, pus, or swollen (+40)"])
  else (0, [])

/-- Q23 block: GI symptoms. -/
def giPart (r : SurveyResponse) : Nat × List String :=
  if r.nausea_vomiting_diarrhea then (5, ["GI symptoms present (+5)"])
  else (0, [])

structure BaseScoreResult where
  score : Nat
  reasoning : List String
deriving DecidableEq, Repr

/-- STEP 5 (`calculateBaseScore`): each source `if` block is one of the
`...Part` functions above; the running accumulation is their sum (no block
reads the running score). -/
def calculateBaseScore (r : SurveyResponse) : BaseScoreResult :=
  { score :=
      (energyPart r).1 + (feverChillsPart r).1 + (temperaturePart r).1 +
      (oxygenPart r).1 + (heartRacingPart r).1 + (heartRatePart r).1 +
      (bloodPressurePart r).1 + (thinkingPart r).1 + (breathingPart r).1 +
      (urineAppearancePart r).1 + (utiPart r).1 + (urineOutputPart r).1 +
      (coughPart r).1 + (coughWorseningPart r).1 + (woundPart r).1 + (giPart r).1,
    reasoning :=
      (energyPart r).2 ++ (feverChillsPart r).2 ++ (temperaturePart r).2 ++
      (oxygenPart r).2 ++ (heartRacingPart r).2 ++ (heartRatePart r).2 ++
      (bloodPressurePart r).2 ++ (thinkingPart r).2 ++ (breathingPart r).2 ++
      (urineAppearancePart r).2 ++ (utiPart r).2 ++ (urineOutputPart r).2 ++
      (coughPart r).2 ++ (coughWorseningPart r).2 ++ (woundPart r).2 ++ (giPart r).2 }

/-- STEP 6 (`isHighRiskPatient`): age >= 65, weakened immune system, or
more than one admission. -/
def isHighRiskPatient (r : SurveyResponse) : Bool :=
  (match r.age with
   | some a => decide (65 ≤ a)
   | none => false) ||
  r.has_weakened_immune ||
  decide (1 < r.admitted_count)

/-- The update `Math.round(totalScore * 1.25)` applied when the high-risk modifier
holds (duplicated in `determineFinalRiskLevel` and `calculateSepsisRisk`,
exactly as in the source).  `(baseScore : ℚ) * 1.25` is written
`mkRat (5 * baseScore) 4` so that it evaluates inside the kernel;
`applyHighRiskModifier_eq` below shows the two agree. -/
def applyHighRiskModifier (baseScore : Nat) (highRiskModifier : Bool) : Nat :=
  if highRiskModifier then (mathRound (mkRat (5 * baseScore) 4)).toNat else baseScore

structure FinalDecision where
  riskLevel : RiskLevel
  triggerReason : String
deriving DecidableEq, Repr

/-- The score- and flag-based level of `determineFinalRiskLevel` (the
source's inline `scoreBasedLevel`/`scoreTrigger` if-chain). -/
def scoreBasedOf (totalScore criticalFlags : Nat) : RiskLevel × String :=
  if 2 ≤ criticalFlags then (.RED, "Multiple organ systems in red zone")
  else if 60 ≤ totalScore then (.RED, "High sepsis risk score")
  else if 30 ≤ totalScore ∧ 1 ≤ criticalFlags then
    (.RED, "Critical vital sign with concerning symptoms")
  else if 30 ≤ totalScore then (.YELLOW, "Moderate symptoms requiring evaluation")
  else if 1 ≤ criticalFlags then
    (.YELLOW, "At least one vital sign or organ system in critical zone")
  else (.GREEN, "")

/-- STEP 7 (`determineFinalRiskLevel`): score- and flag-based level, then
pattern escalation (patterns only increase risk). -/
def determineFinalRiskLevel (baseScore criticalFlags : Nat) (highRiskModifier : Bool)
    (patternEscalation : Option RiskLevel) : FinalDecision :=
  let totalScore := applyHighRiskModifier baseScore highRiskModifier
  let scoreBased : RiskLevel × String := scoreBasedOf totalScore criticalFlags
  let scoreBasedLevel := scoreBased.1
  if patternEscalation = some .RED_EMERGENCY then
    { riskLevel := .RED_EMERGENCY, triggerReason := "Septic shock pattern detected" }
  else if patternEscalation = some .RED ∧ (scoreBasedLevel = .YELLOW ∨ scoreBasedLevel = .GREEN) then
    { riskLevel := .RED, triggerReason := "Dangerous sepsis pattern detected" }
  else if patternEscalation = some .YELLOW ∧ scoreBasedLevel = .GREEN then
    { riskLevel := .YELLOW, triggerReason := "Infection pattern detected" }
  else
    { riskLevel := scoreBasedLevel, triggerReason := scoreBased.2 }

/-- MAIN (`calculateSepsisRisk`).  The zoned record `calculateZones r` is
the post-call state of the argument (the source fills zones in place). -/
def calculateSepsisRisk (r0 : SurveyResponse) : RiskCalculationResult :=
  let r := calculateZones r0
  match checkEmergencyConditions r with
  | some emergency => emergency
  | none =>
  match checkHardRedOverrides r with
  | some hardRed => hardRed
  | none =>
    let criticalFlags := countCriticalFlags r
    let reasoningFlags : List String :=
      if 0 < criticalFlags then
        [toString criticalFlags ++ " vital sign(s) or organ system(s) in critical zone"]
      else []
    let patternResult := detectSepsisPatterns r
    let reasoningPatterns : List String :=
      if patternResult.detectedPatterns ≠ [] then
        "" :: "Clinical Patterns Detected:" ::
          patternResult.detectedPatterns.map (fun p => "  - " ++ p)
      else []
    if patternResult.escalationLevel = some .RED_EMERGENCY then
      { riskLevel := .RED_EMERGENCY, totalScore := 1000, baseScore := 0,
        interactionScore := 0, criticalFlags := criticalFlags,
        highRiskModifierApplied := false,
        reasoning := reasoningFlags ++ reasoningPatterns,
        emergencyMessage := patternResult.escalationReason }
    else
      let baseResult := calculateBaseScore r
      let reasoningBase : List String :=
        if baseResult.reasoning ≠ [] then
          "" :: "Individual Symptoms:" :: baseResult.reasoning.map (fun s => "  - " ++ s)
        else []
      let highRiskModifier := isHighRiskPatient r
      let reasoningModifier : List String :=
        if highRiskModifier then ["", "High-risk patient: 25% score increase applied"] else []
      let baseScore := baseResult.score
      let totalScore := applyHighRiskModifier baseScore highRiskModifier
      let reasoningTotal : List String :=
        ["", "Total Score: " ++ toString totalScore ++ " (Base: " ++ toString baseScore ++
          (if highRiskModifier then " x 1.25" else "") ++ ")"]
      let fin := determineFinalRiskLevel baseScore criticalFlags highRiskModifier
        patternResult.escalationLevel
      let emergencyMessage : Option String :=
        if fin.riskLevel = .RED then
          if patternResult.escalationLevel = some .RED then patternResult.escalationReason
          else if 2 ≤ criticalFlags then
            some "SEEK IMMEDIATE MEDICAL ATTENTION - Multiple critical vital signs detected"
          else some "SEEK IMMEDIATE MEDICAL ATTENTION - High sepsis risk"
        else if fin.riskLevel = .YELLOW then
          if patternResult.escalationLevel = some .YELLOW then patternResult.escalationReason
          else some "Contact your healthcare provider today for evaluation"
        else none
      { riskLevel := fin.riskLevel, totalScore := totalScore, baseScore := baseScore,
        interactionScore := 0, criticalFlags := criticalFlags,
        highRiskModifierApplied := highRiskModifier,
        reasoning := reasoningFlags ++ reasoningPatterns ++ reasoningBase ++
          reasoningModifier ++ reasoningTotal,
        emergencyMessage := emergencyMessage }

/-- Zone record returned by the API route's `computeZones`. -/
structure ZoneAssignment where
  temperature_zone : Option Nat
  oxygen_level_zone : Option Nat
  heart_rate_zone : Option Nat
  blood_pressure_zone : Option Nat
deriving DecidableEq, Repr

/-- Function `computeZones` from `app/api/checkin/route.ts` (its comment says it
mirrors `calculateZones`); note the oxygen branch `o >= 95 ? 1 : o >= 92 ?
2 : 3` has no upper bounds. -/
def computeZones (r : SurveyResponse) : ZoneAssignment :=
  { temperature_zone :=
      match r.temperature_value with
      | some t =>
          some (if mkRat 968 10 ≤ t ∧ t ≤ mkRat 999 10 then 1
            else if 100 ≤ t ∧ t ≤ mkRat 1014 10 then 2
            else 3)
      | none => none,
    oxygen_level_zone :=
      match r.oxygen_level_value with
      | some o => some (if 95 ≤ o then 1 else if 92 ≤ o then 2 else 3)
      | none => none,
    heart_rate_zone :=
      match r.heart_rate_value with
      | some h =>
          some (if 60 ≤ h ∧ h ≤ 100 then 1 else if 101 ≤ h ∧ h ≤ 120 then 2 else 3)
      | none => none,
    blood_pressure_zone :=
      match r.blood_pressure_systolic with
      | some bp =>
          some (if bp < 90 ∨ bp > 180 ∨ bp < resolveBaseline r.baseline_bp_systolic - 40 then 3
            else if bp < resolveBaseline r.baseline_bp_systolic - 20 then 2
            else 1)
      | none => none }

/-- An all-clear response: every boolean false, every ordinal at its normal
level, every optional field absent. -/
def benignResponse : SurveyResponse :=
  { fainted_or_very_dizzy := false
    severe_trouble_breathing := false
    severe_confusion := false
    extreme_heat_or_chills := false
    overall_feeling := none
    energy_level := 1
    pain_level := none
    fever_chills := false
    has_thermometer := false
    temperature_value := none
    temperature_zone := none
    has_pulse_oximeter := false
    oxygen_level_value := none
    oxygen_level_zone := none
    heart_racing := false
    has_hr_monitor := false
    heart_rate_value := none
    heart_rate_zone := none
    has_bp_cuff := false
    blood_pressure_systolic := none
    baseline_bp_systolic := none
    blood_pressure_zone := none
    thinking_level := 1
    breathing_level := 1
    urine_appearance_level := 1
    has_recent_uti := false
    uti_symptoms_worsening := none
    has_kidney_disease := false
    has_kidney_failure := false
    has_dialysis := false
    urine_output_level := none
    has_cough := false
    has_recent_pneumonia := false
    cough_worsening := none
    has_active_wound := false
    wound_state_level := none
    discolored_skin := false
    nausea_vomiting_diarrhea := false
    additional_notes := none
    age := none
    has_weakened_immune := false
    admitted_count := 0
    mucus_color_level := none
    on_immunosuppressants := false }

/-- Rank of a risk level under the order GREEN < YELLOW < RED <
RED_EMERGENCY. -/
def levelRank : RiskLevel → Nat
  | .GREEN => 0
  | .YELLOW => 1
  | .RED => 2
  | .RED_EMERGENCY => 3

/-- Maximum of two risk levels under GREEN < YELLOW < RED < RED_EMERGENCY. -/
def levelMax (a b : RiskLevel) : RiskLevel :=
  if levelRank a ≤ levelRank b then b else a

/-- The score-based tier exactly as claim C2 states it: RED iff total ≥ 60,
YELLOW iff 30 ≤ total < 60, GREEN otherwise (no critical-flag branches). -/
def scoreTierClaimC2 (total : Nat) : RiskLevel :=
  if 60 ≤ total then .RED
  else if 30 ≤ total then .YELLOW
  else .GREEN

/-- The score-based tier as the code computes it (amended claim C2): the
critical-flag count participates alongside the thresholds. -/
def scoreTierWithFlags (total criticalFlags : Nat) : RiskLevel :=
  if 2 ≤ criticalFlags then .RED
  else if 60 ≤ total then .RED
  else if 30 ≤ total ∧ 1 ≤ criticalFlags then .RED
  else if 30 ≤ total then .YELLOW
  else if 1 ≤ criticalFlags then .YELLOW
  else .GREEN

/-- The BP zone exactly as claim C3 states it: zone 1 when
baseline − current < 20 (and 90 ≤ current ≤ 180); zone 2 when
20 ≤ baseline − current < 40 (and 90 ≤ current ≤ 180); zone 3 when
current < 90, current > 180, or baseline − current ≥ 40. -/
def bpZoneClaimC3 (bp : ℚ) (bl : Option ℚ) : Nat :=
  let baseline := resolveBaseline bl
  if baseline - bp < 20 ∧ 90 ≤ bp ∧ bp ≤ 180 then 1
  else if 20 ≤ baseline - bp ∧ baseline - bp < 40 ∧ 90 ≤ bp ∧ bp ≤ 180 then 2
  else 3

/-- The BP zone with the boundaries the code actually uses (amended claim
C3): zone 3 when current < 90, current > 180, or the drop exceeds 40
strictly; zone 2 when the drop exceeds 20 strictly (up to 40); zone 1
otherwise.  A drop of exactly 20 is zone 1 and a drop of exactly 40 is
zone 2. -/
def bpZoneAmendedC3 (bp : ℚ) (bl : Option ℚ) : Nat :=
  let baseline := resolveBaseline bl
  if bp < 90 ∨ 180 < bp ∨ 40 < baseline - bp then 3
  else if 20 < baseline - bp then 2
  else 1

/-- The infection-context predicate exactly as claim C4 (and spec §4.4)
states it, with the final disjunct `cough AND mucus-color ≥ 2`. -/
def infectionContextClaimC4 (r : SurveyResponse) : Bool :=
  r.fever_chills ||
  decide (2 ≤ r.temperature_zone.getD 0) ||
  decide (2 ≤ r.urine_appearance_level) ||
  decide (r.wound_state_level = some 3) ||
  (r.has_cough && decide (2 ≤ r.mucus_color_level.getD 0))

/-- The severity ordinals of claim C7. -/
inductive OrdinalField where
  | energy
  | thinking
  | breathing
  | urineAppearance
  | urineOutput
  | wound
deriving DecidableEq, Repr

/-- Raise the given severity ordinal by one step (within its 1-3 range; an
absent optional ordinal has no step to take). -/
def bumpOrdinal : OrdinalField → SurveyResponse → SurveyResponse
  | .energy, r =>
      if r.energy_level < 3 then { r with energy_level := r.energy_level + 1 } else r
  | .thinking, r =>
      if r.thinking_level < 3 then { r with thinking_level := r.thinking_level + 1 } else r
  | .breathing, r =>
      if r.breathing_level < 3 then { r with breathing_level := r.breathing_level + 1 } else r
  | .urineAppearance, r =>
      if r.urine_appearance_level < 3 then
        { r with urine_appearance_level := r.urine_appearance_level + 1 }
      else r
  | .urineOutput, r =>
      match r.urine_output_level with
      | some k => if k < 3 then { r with urine_output_level := some (k + 1) } else r
      | none => r
  | .wound, r =>
      match r.wound_state_level with
      | some k => if k < 3 then { r with wound_state_level := some (k + 1) } else r
      | none => r

/-- Zone field of the post-call response (amended claim C9): an already
present zone is kept, an absent zone is filled from the raw value when one
exists. -/
def zoneAfter (zone : Option Nat) (value : Option ℚ) (classify : ℚ → Nat) : Option Nat :=
  match zone, value with
  | some z, _ => some z
  | none, some v => some (classify v)
  | none, none => none

/-- Claim C2 counterexample input: a temperature of 102 °F (red zone: one
critical flag, +40 base points) and nothing else abnormal. -/
def inputC2 : SurveyResponse :=
  { benignResponse with has_thermometer := true, temperature_value := some 102 }

/-- Claim C4 counterexample input: pre-computed BP zone 2, slowed thinking,
a worsening cough with clear (level 1) mucus — no fever, no abnormal
temperature, urine or wound. -/
def inputC4ce : SurveyResponse :=
  { benignResponse with
    blood_pressure_zone := some 2, thinking_level := 2, has_cough := true,
    cough_worsening := some true, mucus_color_level := some 1 }

/-- Claim C4 witness input: pre-computed BP zone 2, slowed thinking and
subjective fever (clear infection context). -/
def inputC4w : SurveyResponse :=
  { benignResponse with
    blood_pressure_zone := some 2, thinking_level := 2, fever_chills := true }

/-- Claim C5 counterexample input: subjective fever without a thermometer,
yet a 102 °F reading is present. -/
def inputC5 : SurveyResponse :=
  { benignResponse with fever_chills := true, temperature_value := some 102 }

/-- Claim C6 counterexample input: on immunosuppressants (and moderately
fatigued, for a non-zero base score) but not high-risk by the code's
three-part predicate. -/
def inputC6ce : SurveyResponse :=
  { benignResponse with on_immunosuppressants := true, energy_level := 2 }

/-- Claim C6 witness input: age 70 (high-risk), moderately fatigued
(base 5, total `Math.round(6.25) = 6`). -/
def inputC6w : SurveyResponse :=
  { benignResponse with age := some 70, energy_level := 2 }

/-- Claim C7 counterexample inputs: thinking (resp. breathing) at level 2,
about to be raised to the level-3 step that the base scorer does not
score. -/
def inputC7a : SurveyResponse := { benignResponse with thinking_level := 2 }

def inputC7b : SurveyResponse := { benignResponse with breathing_level := 2 }

/-- Claim C9 counterexample input: a raw temperature with no pre-computed
zone, so the call fills `temperature_zone` in place. -/
def inputC9 : SurveyResponse :=
  { benignResponse with temperature_value := some 102 }

/-- Claim C10 failing inputs: an SpO₂ reading above 100, and one of 94.5
(strictly between the yellow band's upper bound 94 and the green band's
lower bound 95). -/
def inputC10a : SurveyResponse :=
  { benignResponse with oxygen_level_value := some 101 }

def inputC10b : SurveyResponse :=
  { benignResponse with oxygen_level_value := some (mkRat 189 2) }

/-- The `mkRat` constants used in the zone and override thresholds are the
decimal literals of the source. -/
theorem decimalConstantsSpec :
    (mkRat 968 10 : ℚ) = 96.8 ∧ (mkRat 999 10 : ℚ) = 99.9 ∧
    (mkRat 1014 10 : ℚ) = 101.4 ∧ (mkRat 1035 10 : ℚ) = 103.5 := by
  norm_num

/-- Bridge: `mathRound` is JavaScript rounding, `⌊q + 1/2⌋`. -/
theorem mathRound_eq_floor (q : ℚ) : mathRound q = ⌊q + 1 / 2⌋ := by
  unfold mathRound
  congr 1
  have hd : (q.den : ℚ) ≠ 0 := Nat.cast_ne_zero.mpr q.den_nz
  have hq := Rat.num_div_den q
  rw [div_eq_iff hd] at hq
  rw [Rat.mkRat_eq_div]
  push_cast
  rw [div_eq_iff (by positivity), hq]
  ring

/-- Bridge: `applyHighRiskModifier` is the source's
`Math.round(baseScore * 1.25)` under the modifier. -/
theorem applyHighRiskModifier_eq (b : Nat) (hrm : Bool) :
    applyHighRiskModifier b hrm = if hrm then (⌊(b : ℚ) * 1.25 + 1 / 2⌋).toNat else b := by
  unfold applyHighRiskModifier
  cases hrm
  · rfl
  · simp only [if_true]
    rw [mathRound_eq_floor]
    congr 2
    rw [Rat.mkRat_eq_div]
    push_cast
    norm_num
    ring

/-- Frame: `zoneTempStep` only (possibly) fills the temperature zone. -/
theorem zoneTempStep_eq (r : SurveyResponse) :
    zoneTempStep r =
      { r with temperature_zone := zoneAfter r.temperature_zone r.temperature_value tempZoneOf } := by
  obtain ⟨a1, a2, a3, a4, a5, a6, a7, a8, a9, tv, tz, a12, ov, oz, a15, a16, hv, hz, a19,
    bv, bl, bz, a23, a24, a25, a26, a27, a28, a29, a30, a31, a32, a33, a34, a35, a36, a37,
    a38, a39, a40, a41, a42, a43, a44⟩ := r
  rcases tv with _ | tv <;> rcases tz with _ | tz <;> rfl

theorem zoneOxygenStep_eq (r : SurveyResponse) :
    zoneOxygenStep r =
      { r with oxygen_level_zone := zoneAfter r.oxygen_level_zone r.oxygen_level_value oxygenZoneOf } := by
  obtain ⟨a1, a2, a3, a4, a5, a6, a7, a8, a9, tv, tz, a12, ov, oz, a15, a16, hv, hz, a19,
    bv, bl, bz, a23, a24, a25, a26, a27, a28, a29, a30, a31, a32, a33, a34, a35, a36, a37,
    a38, a39, a40, a41, a42, a43, a44⟩ := r
  rcases ov with _ | ov <;> rcases oz with _ | oz <;> rfl

theorem zoneHeartRateStep_eq (r : SurveyResponse) :
    zoneHeartRateStep r =
      { r with heart_rate_zone := zoneAfter r.heart_rate_zone r.heart_rate_value heartRateZoneOf } := by
  obtain ⟨a1, a2, a3, a4, a5, a6, a7, a8, a9, tv, tz, a12, ov, oz, a15, a16, hv, hz, a19,
    bv, bl, bz, a23, a24, a25, a26, a27, a28, a29, a30, a31, a32, a33, a34, a35, a36, a37,
    a38, a39, a40, a41, a42, a43, a44⟩ := r
  rcases hv with _ | hv <;> rcases hz with _ | hz <;> rfl

theorem zoneBpStep_eq (r : SurveyResponse) :
    zoneBpStep r =
      { r with blood_pressure_zone :=
          (zoneAfter r.blood_pressure_zone r.blood_pressure_systolic
            (fun bp => bpZoneOf bp r.baseline_bp_systolic)) } := by
  obtain ⟨a1, a2, a3, a4, a5, a6, a7, a8, a9, tv, tz, a12, ov, oz, a15, a16, hv, hz, a19,
    bv, bl, bz, a23, a24, a25, a26, a27, a28, a29, a30, a31, a32, a33, a34, a35, a36, a37,
    a38, a39, a40, a41, a42, a43, a44⟩ := r
  rcases bv with _ | bv <;> rcases bz with _ | bz <;> rfl

/-- Frame: `calculateZones` only (possibly) fills the four zone fields; every
other field is returned unchanged, and a pre-calculated zone is kept. -/
theorem calculateZones_eq (r : SurveyResponse) :
    calculateZones r =
      { r with
        temperature_zone := zoneAfter r.temperature_zone r.temperature_value tempZoneOf,
        oxygen_level_zone := zoneAfter r.oxygen_level_zone r.oxygen_level_value oxygenZoneOf,
        heart_rate_zone := zoneAfter r.heart_rate_zone r.heart_rate_value heartRateZoneOf,
        blood_pressure_zone :=
          (zoneAfter r.blood_pressure_zone r.blood_pressure_systolic
            (fun bp => bpZoneOf bp r.baseline_bp_systolic)) } := by
  unfold calculateZones
  rw [zoneTempStep_eq, zoneOxygenStep_eq, zoneHeartRateStep_eq, zoneBpStep_eq]

/-- Every terminal result of the emergency gate is RED_EMERGENCY with the
1000 sentinel and an action message. -/
theorem checkEmergencyConditions_some (r : SurveyResponse) (res : RiskCalculationResult)
    (h : checkEmergencyConditions r = some res) :
    res.riskLevel = .RED_EMERGENCY ∧ res.totalScore = 1000 ∧ res.emergencyMessage.isSome := by
  unfold checkEmergencyConditions at h
  split_ifs at h
  all_goals first
    | exact Option.noConfusion h
    | (injection h with h; subst h; exact ⟨rfl, rfl, rfl⟩)

/-- If the emergency gate does not fire, all four Q1-Q4 booleans are
false. -/
theorem checkEmergencyConditions_none (r : SurveyResponse)
    (h : checkEmergencyConditions r = none) :
    r.fainted_or_very_dizzy = false ∧ r.severe_trouble_breathing = false ∧
    r.severe_confusion = false ∧ r.extreme_heat_or_chills = false := by
  unfold checkEmergencyConditions at h
  split_ifs at h
  simp_all

/-- Every terminal result of the hard-override gate is RED_EMERGENCY with
the 1000 sentinel and an action message. -/
theorem checkHardRedOverrides_some (r : SurveyResponse) (res : RiskCalculationResult)
    (h : checkHardRedOverrides r = some res) :
    res.riskLevel = .RED_EMERGENCY ∧ res.totalScore = 1000 ∧ res.emergencyMessage.isSome := by
  unfold checkHardRedOverrides at h
  split_ifs at h
  all_goals first
    | exact Option.noConfusion h
    | (injection h with h; subst h; exact ⟨rfl, rfl, rfl⟩)

/-- If the hard-override gate does not fire, none of its seven conditions
holds. -/
theorem checkHardRedOverrides_none (r : SurveyResponse)
    (h : checkHardRedOverrides r = none) :
    ¬(r.temperature_value.isSome ∧ mkRat 1035 10 ≤ r.temperature_value.getD 0) ∧
    ¬(r.oxygen_level_value.isSome ∧ r.oxygen_level_value.getD 0 < 90) ∧
    ¬(r.heart_rate_value.isSome ∧ 140 < r.heart_rate_value.getD 0) ∧
    r.breathing_level ≠ 3 ∧ r.thinking_level ≠ 3 ∧
    r.blood_pressure_zone ≠ some 3 ∧ r.discolored_skin = false := by
  unfold checkHardRedOverrides at h
  split_ifs at h
  simp_all

/-- Once the winning escalation is RED, none of the later (RED or YELLOW)
patterns changes it. -/
theorem applyPatternRule_red (r : SurveyResponse) (st : PatternResult) (p : PatternRule)
    (hp : p.level ≠ .RED_EMERGENCY) (h : st.escalationLevel = some .RED) :
    (applyPatternRule r st p).escalationLevel = some .RED := by
  unfold applyPatternRule setEscalation
  split_ifs <;> simp_all

/-- Patterns 2-9 preserve a RED escalation. -/
theorem detectRemainingPatterns_red (r : SurveyResponse) (st : PatternResult)
    (h : st.escalationLevel = some .RED) :
    (detectRemainingPatterns r st).escalationLevel = some .RED := by
  unfold detectRemainingPatterns remainingPatternRules
  simp only [List.foldl_cons, List.foldl_nil]
  iterate 8 refine applyPatternRule_red _ _ _ (by decide) ?_
  exact h

/-- Bridge: `scoreTierWithFlags` is the level component of the source's
score-based chain. -/
theorem scoreTierWithFlags_eq (t f : Nat) :
    scoreTierWithFlags t f = (scoreBasedOf t f).1 := by
  unfold scoreTierWithFlags scoreBasedOf
  split_ifs <;> rfl

/-- The score-based tier never reaches RED_EMERGENCY. -/
theorem scoreTierWithFlags_ne_emergency (t f : Nat) :
    scoreTierWithFlags t f ≠ .RED_EMERGENCY := by
  unfold scoreTierWithFlags
  split_ifs <;> simp

/-- Resolver law: `determineFinalRiskLevel` is the maximum of the score-and-flag-based
tier and the pattern escalation under GREEN < YELLOW < RED <
RED_EMERGENCY. -/
theorem determineFinalRiskLevel_eq_max (b f : Nat) (hrm : Bool) (esc : Option RiskLevel) :
    (determineFinalRiskLevel b f hrm esc).riskLevel =
      levelMax (scoreTierWithFlags (applyHighRiskModifier b hrm) f) (esc.getD .GREEN) := by
  unfold determineFinalRiskLevel
  rw [scoreTierWithFlags_eq]
  dsimp only
  generalize scoreBasedOf (applyHighRiskModifier b hrm) f = sb
  obtain ⟨s, msg⟩ := sb
  rcases s <;> rcases esc with _ | l <;> (try rcases l) <;> rfl

/-- If the emergency gate fires (after zoning), its result is returned. -/
theorem calculateSepsisRisk_emergency (r : SurveyResponse) (res : RiskCalculationResult)
    (h : checkEmergencyConditions (calculateZones r) = some res) :
    calculateSepsisRisk r = res := by
  unfold calculateSepsisRisk
  dsimp only
  rw [h]

/-- If only the hard-override gate fires, its result is returned. -/
theorem calculateSepsisRisk_hardRed (r : SurveyResponse) (res : RiskCalculationResult)
    (h1 : checkEmergencyConditions (calculateZones r) = none)
    (h2 : checkHardRedOverrides (calculateZones r) = some res) :
    calculateSepsisRisk r = res := by
  unfold calculateSepsisRisk
  dsimp only
  rw [h1, h2]

/-- If no gate fires but a pattern forces RED_EMERGENCY, the pipeline
returns the terminal sentinel result without running the base scorer. -/
theorem calculateSepsisRisk_patternEmergency (r : SurveyResponse)
    (h1 : checkEmergencyConditions (calculateZones r) = none)
    (h2 : checkHardRedOverrides (calculateZones r) = none)
    (h3 : (detectSepsisPatterns (calculateZones r)).escalationLevel = some .RED_EMERGENCY) :
    (calculateSepsisRisk r).riskLevel = .RED_EMERGENCY ∧
    (calculateSepsisRisk r).totalScore = 1000 ∧
    (calculateSepsisRisk r).baseScore = 0 ∧
    (calculateSepsisRisk r).emergencyMessage =
      (detectSepsisPatterns (calculateZones r)).escalationReason := by
  unfold calculateSepsisRisk
  dsimp only
  rw [h1, h2]
  dsimp only
  rw [if_pos h3]
  exact ⟨rfl, rfl, rfl, rfl⟩

/-- If nothing terminal fires, the result record carries the base score,
the modified total and `determineFinalRiskLevel`'s tier. -/
theorem calculateSepsisRisk_scored (r : SurveyResponse)
    (h1 : checkEmergencyConditions (calculateZones r) = none)
    (h2 : checkHardRedOverrides (calculateZones r) = none)
    (h3 : (detectSepsisPatterns (calculateZones r)).escalationLevel ≠ some .RED_EMERGENCY) :
    (calculateSepsisRisk r).riskLevel =
      (determineFinalRiskLevel (calculateBaseScore (calculateZones r)).score
        (countCriticalFlags (calculateZones r)) (isHighRiskPatient (calculateZones r))
        (detectSepsisPatterns (calculateZones r)).escalationLevel).riskLevel ∧
    (calculateSepsisRisk r).totalScore =
      applyHighRiskModifier (calculateBaseScore (calculateZones r)).score
        (isHighRiskPatient (calculateZones r)) ∧
    (calculateSepsisRisk r).baseScore = (calculateBaseScore (calculateZones r)).score ∧
    (calculateSepsisRisk r).highRiskModifierApplied = isHighRiskPatient (calculateZones r) ∧
    (calculateSepsisRisk r).criticalFlags = countCriticalFlags (calculateZones r) := by
  unfold calculateSepsisRisk
  dsimp only
  rw [h1, h2]
  dsimp only
  rw [if_neg h3]
  exact ⟨rfl, rfl, rfl, rfl, rfl⟩

/-- C1: for every response in which any of the EmergencyGate conditions
(fainted/very-dizzy, breathing level 3, thinking level 3,
extreme-heat-or-chills, discolored skin) is true, `calculateSepsisRisk`
returns riskLevel RED_EMERGENCY with the sentinel totalScore 1000 and an
emergency action message, regardless of all other field values. -/
theorem claimC1_emergencyGate (r : SurveyResponse)
    (h : r.fainted_or_very_dizzy = true ∨ r.breathing_level = 3 ∨ r.thinking_level = 3 ∨
      r.extreme_heat_or_chills = true ∨ r.discolored_skin = true) :
    (calculateSepsisRisk r).riskLevel = .RED_EMERGENCY ∧
    (calculateSepsisRisk r).totalScore = 1000 ∧
    (calculateSepsisRisk r).emergencyMessage.isSome = true := by
  cases he : checkEmergencyConditions (calculateZones r) with
  | some res =>
      rw [calculateSepsisRisk_emergency r res he]
      exact checkEmergencyConditions_some _ res he
  | none =>
      cases hh : checkHardRedOverrides (calculateZones r) with
      | some res =>
          rw [calculateSepsisRisk_hardRed r res he hh]
          exact checkHardRedOverrides_some _ res hh
      | none =>
          exfalso
          obtain ⟨e1, -, -, e4⟩ := checkEmergencyConditions_none _ he
          obtain ⟨-, -, -, o4, o5, -, o7⟩ := checkHardRedOverrides_none _ hh
          rw [calculateZones_eq r] at e1 e4 o4 o5 o7
          dsimp only at e1 e4 o4 o5 o7
          rcases h with h | h | h | h | h <;> simp_all

/-- C1 witness: discolored skin alone forces the terminal emergency
verdict. -/
theorem claimC1_witness :
    (calculateSepsisRisk { benignResponse with discolored_skin := true }).riskLevel
        = .RED_EMERGENCY ∧
    (calculateSepsisRisk { benignResponse with discolored_skin := true }).totalScore = 1000 ∧
    (calculateSepsisRisk { benignResponse with
      discolored_skin := true }).emergencyMessage.isSome = true :=
  claimC1_emergencyGate _ (Or.inr (Or.inr (Or.inr (Or.inr rfl))))

/-- C2 counterexample: with a single red-zone temperature of 102 °F the
total score is 40 and no pattern escalation fires, so the claimed rule
(RED iff ≥ 60, YELLOW iff 30 ≤ total < 60) predicts YELLOW — but the code
returns RED through its critical-flag branch. -/
theorem claimC2_counterexample :
    checkEmergencyConditions (calculateZones inputC2) = none ∧
    checkHardRedOverrides (calculateZones inputC2) = none ∧
    (detectSepsisPatterns (calculateZones inputC2)).escalationLevel = none ∧
    (calculateSepsisRisk inputC2).totalScore = 40 ∧
    scoreTierClaimC2 40 = .YELLOW ∧
    levelMax (scoreTierClaimC2 40) .GREEN = .YELLOW ∧
    (calculateSepsisRisk inputC2).riskLevel = .RED := by decide

/-- C2 (amended): on every non-terminal input the final tier is the
maximum — under GREEN < YELLOW < RED < RED_EMERGENCY — of the pattern
escalation and a score-based tier that also consults the critical-flag
count: RED when flags ≥ 2, or total ≥ 60, or (total ≥ 30 and flags ≥ 1);
YELLOW when total ≥ 30 or flags ≥ 1; GREEN otherwise. -/
theorem claimC2_amended (r : SurveyResponse)
    (h1 : checkEmergencyConditions (calculateZones r) = none)
    (h2 : checkHardRedOverrides (calculateZones r) = none)
    (h3 : (detectSepsisPatterns (calculateZones r)).escalationLevel ≠ some .RED_EMERGENCY) :
    (calculateSepsisRisk r).riskLevel =
      levelMax
        (scoreTierWithFlags (calculateSepsisRisk r).totalScore
          (countCriticalFlags (calculateZones r)))
        ((detectSepsisPatterns (calculateZones r)).escalationLevel.getD .GREEN) := by
  obtain ⟨hlevel, htotal, -, -, -⟩ := calculateSepsisRisk_scored r h1 h2 h3
  rw [hlevel, htotal, determineFinalRiskLevel_eq_max]

/-- C2 witness: the all-clear response scores GREEN = max(GREEN, GREEN). -/
theorem claimC2_witness :
    (calculateSepsisRisk benignResponse).riskLevel =
      levelMax
        (scoreTierWithFlags (calculateSepsisRisk benignResponse).totalScore
          (countCriticalFlags (calculateZones benignResponse)))
        ((detectSepsisPatterns (calculateZones benignResponse)).escalationLevel.getD .GREEN) :=
  claimC2_amended benignResponse (by decide) (by decide) (by decide)

/-- C3 counterexample: a drop of exactly 20 (120 → 100) is zone 1 in the
code, not zone 2 as claimed; a drop of exactly 40 (140 → 100) is zone 2 in
the code, not zone 3 as claimed. -/
theorem claimC3_counterexample :
    bpZoneOf 100 (some 120) = 1 ∧ bpZoneClaimC3 100 (some 120) = 2 ∧
    bpZoneOf 100 (some 140) = 2 ∧ bpZoneClaimC3 100 (some 140) = 3 := by
  refine ⟨?_, ?_, ?_, ?_⟩ <;> norm_num [bpZoneOf, bpZoneClaimC3, resolveBaseline]

/-- C3 (amended): for every defined systolic reading (baseline defaulting
to 120 when absent or zero), the zone is 3 when current < 90,
current > 180, or the drop from baseline strictly exceeds 40; zone 2 when
the drop strictly exceeds 20 (and none of the zone-3 conditions holds);
zone 1 otherwise.  In particular a drop of exactly 20 yields zone 1 and a
drop of exactly 40 yields zone 2. -/
theorem claimC3_amended (bp : ℚ) (bl : Option ℚ) :
    bpZoneOf bp bl = bpZoneAmendedC3 bp bl := by
  unfold bpZoneOf bpZoneAmendedC3
  dsimp only
  by_cases h1 : bp < 90
  · rw [if_pos h1, if_pos (Or.inl h1)]
  · by_cases h2 : bp > 180
    · rw [if_neg h1, if_pos h2, if_pos (Or.inr (Or.inl h2))]
    · by_cases h3 : bp < resolveBaseline bl - 40
      · rw [if_neg h1, if_neg h2, if_pos h3,
          if_pos (Or.inr (Or.inr (by linarith)))]
      · have hd1 : ¬(bp < 90 ∨ 180 < bp ∨ 40 < resolveBaseline bl - bp) := by
          rintro (h | h | h)
          · exact h1 h
          · exact h2 h
          · exact h3 (by linarith)
        by_cases h4 : bp < resolveBaseline bl - 20
        · rw [if_neg h1, if_neg h2, if_neg h3, if_pos h4, if_neg hd1,
            if_pos (by linarith)]
        · rw [if_neg h1, if_neg h2, if_neg h3, if_neg h4, if_neg hd1,
            if_neg (fun hc => h4 (by linarith))]

/-- C4 counterexample: BP zone 2 and slowed thinking with a worsening
cough but clear (level 1) mucus.  The claimed infection-context predicate
(`cough AND mucus-color ≥ 2`) is false, so the claim predicts a RED
escalation with continued evaluation — but the code's predicate uses
`cough AND cough_worsening`, fires the septic-shock pattern, and returns
the terminal RED_EMERGENCY sentinel. -/
theorem claimC4_counterexample :
    infectionContextClaimC4 (calculateZones inputC4ce) = false ∧
    (calculateZones inputC4ce).blood_pressure_zone = some 2 ∧
    (calculateZones inputC4ce).thinking_level = 2 ∧
    checkEmergencyConditions (calculateZones inputC4ce) = none ∧
    checkHardRedOverrides (calculateZones inputC4ce) = none ∧
    (calculateSepsisRisk inputC4ce).riskLevel = .RED_EMERGENCY ∧
    (calculateSepsisRisk inputC4ce).totalScore = 1000 := by decide

/-- C4 (amended): on every non-terminal input with BP zone 2 and
thinking ≥ 2, if the code's infection-context predicate (fever_chills OR
temp-zone ≥ 2 OR urine-appearance ≥ 2 OR wound-state = 3 OR (cough AND
cough-worsening)) holds then the pattern detector returns only the
septic-shock pattern with a RED_EMERGENCY escalation and the pipeline
returns the terminal sentinel without running the base scorer; otherwise
the detector records the hypotension-with-confusion pattern as a RED
escalation and continues through the remaining eight patterns (which
leave the escalation at RED). -/
theorem claimC4_amended (r : SurveyResponse)
    (h1 : checkEmergencyConditions (calculateZones r) = none)
    (h2 : checkHardRedOverrides (calculateZones r) = none)
    (hbp : (calculateZones r).blood_pressure_zone = some 2)
    (hth : 2 ≤ (calculateZones r).thinking_level) :
    (hasClearInfectionContext (calculateZones r) = true →
      detectSepsisPatterns (calculateZones r) =
        { detectedPatterns := [septicShockMsg], escalationLevel := some .RED_EMERGENCY,
          escalationReason := some septicShockReason } ∧
      (calculateSepsisRisk r).riskLevel = .RED_EMERGENCY ∧
      (calculateSepsisRisk r).totalScore = 1000 ∧
      (calculateSepsisRisk r).baseScore = 0) ∧
    (hasClearInfectionContext (calculateZones r) = false →
      detectSepsisPatterns (calculateZones r) =
        detectRemainingPatterns (calculateZones r)
          (setEscalation
            { detectedPatterns := [hypotensionConfusionMsg], escalationLevel := none,
              escalationReason := none } .RED hypotensionConfusionReason) ∧
      (detectSepsisPatterns (calculateZones r)).escalationLevel = some .RED) := by
  constructor
  · intro hic
    have hdet : detectSepsisPatterns (calculateZones r) =
        { detectedPatterns := [septicShockMsg], escalationLevel := some .RED_EMERGENCY,
          escalationReason := some septicShockReason } := by
      unfold detectSepsisPatterns
      dsimp only
      rw [hbp]
      dsimp only [Option.getD]
      rw [if_pos ⟨rfl, hth⟩, if_pos hic]
      rfl
    obtain ⟨ha, hb, hc, -⟩ :=
      calculateSepsisRisk_patternEmergency r h1 h2 (by rw [hdet])
    exact ⟨hdet, ha, hb, hc⟩
  · intro hic
    have hdet : detectSepsisPatterns (calculateZones r) =
        detectRemainingPatterns (calculateZones r)
          (setEscalation
            { detectedPatterns := [hypotensionConfusionMsg], escalationLevel := none,
              escalationReason := none } .RED hypotensionConfusionReason) := by
      unfold detectSepsisPatterns
      dsimp only
      rw [hbp]
      dsimp only [Option.getD]
      rw [if_pos ⟨rfl, hth⟩, if_neg (by rw [hic]; exact Bool.false_ne_true)]
    refine ⟨hdet, ?_⟩
    rw [hdet]
    exact detectRemainingPatterns_red _ _ rfl

/-- C4 witness: BP zone 2, slowed thinking and subjective fever (infection
context true) yield the immediate septic-shock RED_EMERGENCY. -/
theorem claimC4_witness :
    (calculateSepsisRisk inputC4w).riskLevel = .RED_EMERGENCY ∧
    (calculateSepsisRisk inputC4w).totalScore = 1000 ∧
    (calculateSepsisRisk inputC4w).baseScore = 0 :=
  ((claimC4_amended inputC4w (by decide) (by decide) (by decide) (by decide)).1
    (by decide)).2

/-- C5 counterexample: subjective fever with no thermometer but a 102 °F
reading present — both the subjective branch (+10) and the temperature
zone branch (+40) contribute to the base score on the zoned response. -/
theorem claimC5_counterexample :
    (calculateZones inputC5).fever_chills = true ∧
    (calculateZones inputC5).has_thermometer = false ∧
    (calculateZones inputC5).temperature_value = some 102 ∧
    (feverChillsPart (calculateZones inputC5)).1 = 10 ∧
    (temperaturePart (calculateZones inputC5)).1 = 40 := by decide

/-- C5 (amended): the subjective branch of each pair scores only when the
matching device is unavailable (as claimed), but the code never relates
the zone branch to the device flag: both branches can score at once when a
reading/zone is present while the device flag is false.  Under the
device-consistency assumption that a zone is only present when the device
is available, at most one branch of each pair contributes. -/
theorem claimC5_amended (r : SurveyResponse)
    (ht : r.has_thermometer = false → r.temperature_zone = none)
    (hh : r.has_hr_monitor = false → r.heart_rate_zone = none) :
    (¬((feverChillsPart r).1 ≠ 0 ∧ (temperaturePart r).1 ≠ 0)) ∧
    (¬((heartRacingPart r).1 ≠ 0 ∧ (heartRatePart r).1 ≠ 0)) ∧
    (r.has_thermometer = true → (feverChillsPart r).1 = 0) ∧
    (r.has_hr_monitor = true → (heartRacingPart r).1 = 0) := by
  unfold feverChillsPart temperaturePart heartRacingPart heartRatePart
  split_ifs <;> simp_all

/-- C5 witness: the all-clear response (no devices, no zones) satisfies
the device-consistency assumption vacuously. -/
theorem claimC5_witness :
    (¬((feverChillsPart benignResponse).1 ≠ 0 ∧ (temperaturePart benignResponse).1 ≠ 0)) ∧
    (¬((heartRacingPart benignResponse).1 ≠ 0 ∧ (heartRatePart benignResponse).1 ≠ 0)) ∧
    (benignResponse.has_thermometer = true → (feverChillsPart benignResponse).1 = 0) ∧
    (benignResponse.has_hr_monitor = true → (heartRacingPart benignResponse).1 = 0) :=
  claimC5_amended benignResponse (fun _ => rfl) (fun _ => rfl)

/-- C6 counterexample: a patient on immunosuppressants (age absent, immune
system not flagged, no readmissions) with base score 5.  The claim's
predicate holds, demanding totalScore = Math.round(5 × 1.25) = 6 with the
modifier applied — but the code does not consult `on_immunosuppressants`
and returns totalScore 5 with the modifier off. -/
theorem claimC6_counterexample :
    inputC6ce.on_immunosuppressants = true ∧
    inputC6ce.age = none ∧ inputC6ce.has_weakened_immune = false ∧
    inputC6ce.admitted_count = 0 ∧
    (calculateSepsisRisk inputC6ce).baseScore = 5 ∧
    (calculateSepsisRisk inputC6ce).highRiskModifierApplied = false ∧
    (calculateSepsisRisk inputC6ce).totalScore = 5 ∧
    (mathRound (mkRat (5 * 5) 4)).toNat = 6 := by decide

/-- C6 (amended): on every non-terminal input the high-risk multiplier is
applied exactly when age ≥ 65 OR weakened-immune-system OR
admitted-count > 1 (immunosuppressant use is not consulted), and then
totalScore = Math.round(baseScore × 1.25) with halves rounding up;
otherwise totalScore equals the base score unchanged. -/
theorem claimC6_amended (r : SurveyResponse)
    (h1 : checkEmergencyConditions (calculateZones r) = none)
    (h2 : checkHardRedOverrides (calculateZones r) = none)
    (h3 : (detectSepsisPatterns (calculateZones r)).escalationLevel ≠ some .RED_EMERGENCY) :
    ((calculateSepsisRisk r).highRiskModifierApplied = true ↔
      ((∃ a, r.age = some a ∧ 65 ≤ a) ∨ r.has_weakened_immune = true ∨
        1 < r.admitted_count)) ∧
    (calculateSepsisRisk r).totalScore =
      (if (calculateSepsisRisk r).highRiskModifierApplied
        then (⌊((calculateSepsisRisk r).baseScore : ℚ) * 1.25 + 1 / 2⌋).toNat
        else (calculateSepsisRisk r).baseScore) := by
  obtain ⟨-, htotal, hbase, hflag, -⟩ := calculateSepsisRisk_scored r h1 h2 h3
  have hage : (calculateZones r).age = r.age := by rw [calculateZones_eq]
  have hwi : (calculateZones r).has_weakened_immune = r.has_weakened_immune := by
    rw [calculateZones_eq]
  have hadm : (calculateZones r).admitted_count = r.admitted_count := by
    rw [calculateZones_eq]
  constructor
  · rw [hflag]
    unfold isHighRiskPatient
    rw [hage, hwi, hadm]
    rcases r.age with _ | a <;>
      simp [Bool.or_eq_true, decide_eq_true_eq, or_assoc]
  · rw [htotal, hbase, hflag, applyHighRiskModifier_eq]

/-- C6 witness: age 70 with base score 5 gives the modifier and
totalScore Math.round(6.25) = 6. -/
theorem claimC6_witness :
    ((calculateSepsisRisk inputC6w).highRiskModifierApplied = true ↔
      ((∃ a, inputC6w.age = some a ∧ 65 ≤ a) ∨ inputC6w.has_weakened_immune = true ∨
        1 < inputC6w.admitted_count)) ∧
    (calculateSepsisRisk inputC6w).totalScore =
      (if (calculateSepsisRisk inputC6w).highRiskModifierApplied
        then (⌊((calculateSepsisRisk inputC6w).baseScore : ℚ) * 1.25 + 1 / 2⌋).toNat
        else (calculateSepsisRisk inputC6w).baseScore) :=
  claimC6_amended inputC6w (by decide) (by decide) (by decide)

/-- The base score is monotone in its sixteen per-question parts. -/
theorem baseScorePartsMono (r r' : SurveyResponse)
    (p1 : (energyPart r).1 ≤ (energyPart r').1)
    (p2 : (feverChillsPart r).1 ≤ (feverChillsPart r').1)
    (p3 : (temperaturePart r).1 ≤ (temperaturePart r').1)
    (p4 : (oxygenPart r).1 ≤ (oxygenPart r').1)
    (p5 : (heartRacingPart r).1 ≤ (heartRacingPart r').1)
    (p6 : (heartRatePart r).1 ≤ (heartRatePart r').1)
    (p7 : (bloodPressurePart r).1 ≤ (bloodPressurePart r').1)
    (p8 : (thinkingPart r).1 ≤ (thinkingPart r').1)
    (p9 : (breathingPart r).1 ≤ (breathingPart r').1)
    (p10 : (urineAppearancePart r).1 ≤ (urineAppearancePart r').1)
    (p11 : (utiPart r).1 ≤ (utiPart r').1)
    (p12 : (urineOutputPart r).1 ≤ (urineOutputPart r').1)
    (p13 : (coughPart r).1 ≤ (coughPart r').1)
    (p14 : (coughWorseningPart r).1 ≤ (coughWorseningPart r').1)
    (p15 : (woundPart r).1 ≤ (woundPart r').1)
    (p16 : (giPart r).1 ≤ (giPart r').1) :
    (calculateBaseScore r).score ≤ (calculateBaseScore r').score := by
  unfold calculateBaseScore
  dsimp only
  omega

/-- C7 counterexample: raising thinking (resp. breathing) from 2 to 3
strictly decreases the base score (8 → 0), because level 3 of those
ordinals is scored by the terminal overrides, not the base scorer. -/
theorem claimC7_counterexample :
    (calculateBaseScore (bumpOrdinal .thinking inputC7a)).score
        < (calculateBaseScore inputC7a).score ∧
    (calculateBaseScore (bumpOrdinal .breathing inputC7b)).score
        < (calculateBaseScore inputC7b).score := by decide

/-- C7 (amended): raising any single severity ordinal by one step never
decreases the base score, except for the thinking and breathing 2 → 3
steps (whose level 3 is handled by the terminal hard overrides instead of
the base scorer). -/
theorem claimC7_amended (f : OrdinalField) (r : SurveyResponse)
    (hth : f = .thinking → r.thinking_level ≠ 2)
    (hbr : f = .breathing → r.breathing_level ≠ 2) :
    (calculateBaseScore r).score ≤ (calculateBaseScore (bumpOrdinal f r)).score := by
  cases f with
  | energy =>
      by_cases h : r.energy_level < 3
      · rw [show bumpOrdinal .energy r = { r with energy_level := r.energy_level + 1 } from by
          simp only [bumpOrdinal]; rw [if_pos h]]
        apply baseScorePartsMono <;>
          first
            | exact le_rfl
            | (unfold energyPart; dsimp only; split_ifs <;> omega)
      · rw [show bumpOrdinal .energy r = r from by simp only [bumpOrdinal]; rw [if_neg h]]
  | thinking =>
      have hne := hth rfl
      by_cases h : r.thinking_level < 3
      · rw [show bumpOrdinal .thinking r = { r with thinking_level := r.thinking_level + 1 } from by
          simp only [bumpOrdinal]; rw [if_pos h]]
        apply baseScorePartsMono <;>
          first
            | exact le_rfl
            | (unfold thinkingPart; dsimp only; split_ifs <;> omega)
      · rw [show bumpOrdinal .thinking r = r from by simp only [bumpOrdinal]; rw [if_neg h]]
  | breathing =>
      have hne := hbr rfl
      by_cases h : r.breathing_level < 3
      · rw [show bumpOrdinal .breathing r = { r with breathing_level := r.breathing_level + 1 } from by
          simp only [bumpOrdinal]; rw [if_pos h]]
        apply baseScorePartsMono <;>
          first
            | exact le_rfl
            | (unfold breathingPart; dsimp only; split_ifs <;> omega)
      · rw [show bumpOrdinal .breathing r = r from by simp only [bumpOrdinal]; rw [if_neg h]]
  | urineAppearance =>
      by_cases h : r.urine_appearance_level < 3
      · rw [show bumpOrdinal .urineAppearance r =
            { r with urine_appearance_level := r.urine_appearance_level + 1 } from by
          simp only [bumpOrdinal]; rw [if_pos h]]
        apply baseScorePartsMono <;>
          first
            | exact le_rfl
            | (unfold urineAppearancePart; dsimp only; split_ifs <;> omega)
      · rw [show bumpOrdinal .urineAppearance r = r from by simp only [bumpOrdinal]; rw [if_neg h]]
  | urineOutput =>
      rcases hu : r.urine_output_level with _ | k
      · rw [show bumpOrdinal .urineOutput r = r from by simp only [bumpOrdinal]; rw [hu]]
      · by_cases h : k < 3
        · rw [show bumpOrdinal .urineOutput r = { r with urine_output_level := some (k + 1) } from by
            simp only [bumpOrdinal]; rw [hu]; dsimp only; rw [if_pos h]]
          apply baseScorePartsMono <;>
            first
              | exact le_rfl
              | (unfold urineOutputPart; dsimp only; rw [hu];
                  simp only [Option.some.injEq]; split_ifs <;> omega)
        · rw [show bumpOrdinal .urineOutput r = r from by
            simp only [bumpOrdinal]; rw [hu]; dsimp only; rw [if_neg h]]
  | wound =>
      rcases hw : r.wound_state_level with _ | k
      · rw [show bumpOrdinal .wound r = r from by simp only [bumpOrdinal]; rw [hw]]
      · by_cases h : k < 3
        · rw [show bumpOrdinal .wound r = { r with wound_state_level := some (k + 1) } from by
            simp only [bumpOrdinal]; rw [hw]; dsimp only; rw [if_pos h]]
          apply baseScorePartsMono <;>
            first
              | exact le_rfl
              | (unfold woundPart; dsimp only; rw [hw];
                  simp only [Option.some.injEq]; split_ifs <;> omega)
        · rw [show bumpOrdinal .wound r = r from by
            simp only [bumpOrdinal]; rw [hw]; dsimp only; rw [if_neg h]]

/-- C7 witness: raising energy from its normal level does not decrease the
base score of the all-clear response. -/
theorem claimC7_witness :
    (calculateBaseScore benignResponse).score ≤
      (calculateBaseScore (bumpOrdinal .energy benignResponse)).score :=
  claimC7_amended .energy benignResponse (by decide) (by decide)

/-- C8: every temperature strictly between 99.9 °F and 100.0 °F falls
through both documented bands into the catch-all red branch (zone 3). -/
theorem claimC8_boundaryGapRed (t : ℚ) (h1 : 99.9 < t) (h2 : t < 100) :
    tempZoneOf t = 3 := by
  unfold tempZoneOf
  have e : (mkRat 999 10 : ℚ) = 99.9 := by norm_num
  rw [if_neg (by rintro ⟨-, hb⟩; rw [e] at hb; linarith),
    if_neg (by rintro ⟨ha, -⟩; linarith)]

/-- C8 witness: 99.95 °F is classified red. -/
theorem claimC8_witness :
    (99.9 : ℚ) < mkRat 1999 20 ∧ (mkRat 1999 20 : ℚ) < 100 ∧
    tempZoneOf (mkRat 1999 20) = 3 :=
  ⟨by norm_num, by norm_num,
    claimC8_boundaryGapRed (mkRat 1999 20) (by norm_num) (by norm_num)⟩

/-- C9 counterexample: on a response with a raw temperature and no
pre-computed zone, the call writes `temperature_zone` into its argument —
the post-call record differs from the input. -/
theorem claimC9_counterexample :
    calculateZones inputC9 ≠ inputC9 ∧
    (calculateZones inputC9).temperature_zone = some 3 ∧
    inputC9.temperature_zone = none := by decide

/-- C9 (amended): a call mutates its argument only in the four zone
fields: every other field is unchanged, a pre-computed zone is kept, and
an absent zone is filled exactly when the raw value is present (the
engine remains a pure function of its input — it holds no state between
invocations). -/
theorem claimC9_amended (r : SurveyResponse) :
    calculateZones r =
      { r with
        temperature_zone := zoneAfter r.temperature_zone r.temperature_value tempZoneOf,
        oxygen_level_zone := zoneAfter r.oxygen_level_zone r.oxygen_level_value oxygenZoneOf,
        heart_rate_zone := zoneAfter r.heart_rate_zone r.heart_rate_value heartRateZoneOf,
        blood_pressure_zone :=
          (zoneAfter r.blood_pressure_zone r.blood_pressure_systolic
            (fun bp => bpZoneOf bp r.baseline_bp_systolic)) } :=
  calculateZones_eq r

/-- C10: the API route's `computeZones` does not mirror the calculator's
`calculateZones` on oxygen readings outside the enumerated bands: at
SpO₂ = 101 the route stores zone 1 (green) while the calculator uses
zone 3 (red), and at SpO₂ = 94.5 the route stores zone 2 while the
calculator uses zone 3. -/
theorem claimC10_divergence :
    (computeZones inputC10a).oxygen_level_zone = some 1 ∧
    (calculateZones inputC10a).oxygen_level_zone = some 3 ∧
    (computeZones inputC10b).oxygen_level_zone = some 2 ∧
    (calculateZones inputC10b).oxygen_level_zone = some 3 := by decide

end Sepsis
